import Mathlib

/-!
Shallow embedding of `src/scraper.py` (Mercado Agroganadero dashboard
scraper).  Python strings are modelled as `List Char` (`PyStr`), Python
`int`/`float` results as `PyNum` (a float literal `d₁…dₙ.e₁…eₖ` is kept
exactly as mantissa/decimal-exponent, with `PyNum.toRat` giving its value),
and a raised-and-possibly-caught exception as `PyResult`.  The HTML
document is modelled at the BeautifulSoup API boundary: a `Document`
carries the `get_text(strip=True)` of each `a[href="javascript:void(0);"]`
element and the full-page `get_text()`, which is exactly what
`scrape_dashboard` consumes.
-/

/-- Python strings, modelled as lists of characters. -/
abbrev PyStr := List Char

/-- Python whitespace characters recognised by `str.strip()` (ASCII part). -/
def isSpacePy (c : Char) : Bool :=
  c = ' ' || c = '\t' || c = '\n' || c = '\r' || c = '\x0b' || c = '\x0c'

/-- Embedding of Python `str.strip()`: drop whitespace at both ends. -/
def stripPy (s : PyStr) : PyStr :=
  ((s.dropWhile isSpacePy).reverse.dropWhile isSpacePy).reverse

/-- Embedding of Python `text.split('\n')`. -/
def splitNl : PyStr → List PyStr
  | [] => [[]]
  | c :: rest =>
    let r := splitNl rest
    if c = '\n' then [] :: r
    else
      match r with
      | h :: t => (c :: h) :: t
      | [] => [[c]]

/-- Lowercase-to-uppercase table used by the embedding of `str.upper()`
(ASCII letters plus the accented Spanish letters that occur on the page). -/
def lcPairs : List (Char × Char) :=
  [('a','A'),('b','B'),('c','C'),('d','D'),('e','E'),('f','F'),('g','G'),
   ('h','H'),('i','I'),('j','J'),('k','K'),('l','L'),('m','M'),('n','N'),
   ('o','O'),('p','P'),('q','Q'),('r','R'),('s','S'),('t','T'),('u','U'),
   ('v','V'),('w','W'),('x','X'),('y','Y'),('z','Z'),
   ('á','Á'),('é','É'),('í','Í'),('ó','Ó'),('ú','Ú'),('ñ','Ñ'),('ü','Ü')]

/-- Embedding of Python `str.upper()` on one character. -/
def upPy (c : Char) : Char :=
  ((lcPairs.find? (fun p => p.1 = c)).map Prod.snd).getD c

/-- Embedding of Python `str.upper()`. -/
def upL (s : PyStr) : PyStr := s.map upPy

/-- Does `s` start with `p`? -/
def startsWithL : PyStr → PyStr → Bool
  | _, [] => true
  | [], _ :: _ => false
  | c :: s, d :: p => c = d && startsWithL s p

/-- Embedding of Python substring membership `p in s`. -/
def containsSub (s p : PyStr) : Bool :=
  if startsWithL s p then true
  else
    match s with
    | [] => false
    | _ :: t => containsSub t p

/-- Result of a Python expression that may raise an exception. -/
inductive PyResult (α : Type) where
  | ok : α → PyResult α
  | exn : String → PyResult α
deriving DecidableEq

/-- Value of a Python `try` expression given the value the handler returns. -/
def PyResult.getOrHandle : PyResult α → α → α
  | .ok a, _ => a
  | .exn _, d => d

/-- Numeric value produced by `clean_number`: a Python `int`, or a Python
float literal recorded exactly as `float m e` = m / 10^e (the digits kept
by `float(...)` of a decimal string). -/
inductive PyNum where
  | int : Int → PyNum
  | float : Int → Nat → PyNum
deriving DecidableEq

/-- Rational value denoted by a `PyNum`. -/
def PyNum.toRat : PyNum → ℚ
  | .int n => n
  | .float m e => (m : ℚ) / 10 ^ e

/-- Numeric value of a nonempty all-digit string, `none` otherwise. -/
def digitsVal (s : PyStr) : Option Nat :=
  if s ≠ [] && s.all Char.isDigit then
    some (s.foldl (fun a c => a * 10 + (c.toNat - 48)) 0)
  else none

/-- Embedding of Python `int(s)` on the strings reachable here (an optional
leading minus sign followed by one or more digits); raises `ValueError`
otherwise. -/
def int_py (s : PyStr) : PyResult Int :=
  match s with
  | '-' :: ds =>
    match digitsVal ds with
    | some n => .ok (-(n : Int))
    | none => .exn "ValueError"
  | ds =>
    match digitsVal ds with
    | some n => .ok (n : Int)
    | none => .exn "ValueError"

/-- Digit value of a possibly empty all-digit string. -/
def digitsVal0 (s : PyStr) : Option Nat :=
  if s.all Char.isDigit then
    some (s.foldl (fun a c => a * 10 + (c.toNat - 48)) 0)
  else none

/-- Split a string at the first `'.'`, if any. -/
def splitDot : PyStr → Option (PyStr × PyStr)
  | [] => none
  | c :: rest =>
    if c = '.' then some ([], rest)
    else
      match splitDot rest with
      | some (a, b) => some (c :: a, b)
      | none => none

/-- Embedding of Python `float(s)` on the strings reachable here (optional
leading minus sign, digits with at most one `'.'`, at least one digit);
result is `(mantissa, decimal exponent)`.  Raises `ValueError` otherwise. -/
def float_py (s : PyStr) : PyResult (Int × Nat) :=
  let core : PyStr → PyResult (Nat × Nat) := fun t =>
    match splitDot t with
    | none =>
      match digitsVal t with
      | some n => .ok (n, 0)
      | none => .exn "ValueError"
    | some (a, b) =>
      if b.any (· = '.') then .exn "ValueError"
      else
        match digitsVal0 a, digitsVal0 b with
        | some na, some nb =>
          if a = [] && b = [] then .exn "ValueError"
          else .ok (na * 10 ^ b.length + nb, b.length)
        | _, _ => .exn "ValueError"
  match s with
  | '-' :: t =>
    match core t with
    | .ok (m, e) => .ok (-(m : Int), e)
    | .exn msg => .exn msg
  | t =>
    match core t with
    | .ok (m, e) => .ok ((m : Int), e)
    | .exn msg => .exn msg

/-- Characters kept by `re.sub(r'[^\d.,\-]', '', ...)`. -/
def keepCh (c : Char) : Bool :=
  c.isDigit || c = '.' || c = ',' || c = '-'

/-- Cleaned form of the input text inside `clean_number`:
`re.sub(r'[^\d.,\-]', '', text.strip())`, then `.replace('.', '')`, then
`.replace(',', '.')`. -/
def cleanedOf (t : PyStr) : PyStr :=
  (((stripPy t).filter keepCh).filter (fun c => c ≠ '.')).map
    (fun c => if c = ',' then '.' else c)

/-- Body of the `try` block of `clean_number`: `float(cleaned)` when a
decimal point remains in the cleaned string, else `int(cleaned)`. -/
def convert_cleaned (cleaned : PyStr) : PyResult PyNum :=
  if cleaned.contains '.' then
    match float_py cleaned with
    | .ok (m, e) => .ok (.float m e)
    | .exn msg => .exn msg
  else
    match int_py cleaned with
    | .ok n => .ok (.int n)
    | .exn msg => .exn msg

/-- Embedding of `MAGDashboardScraper.clean_number` (src/scraper.py lines
29–41).  `none` input is Python `None`; the `try`/`except (ValueError,
AttributeError)` around the conversion maps any raised error to `None`. -/
def clean_number (text : Option PyStr) : PyResult (Option PyNum) :=
  match text with
  | none => .ok none
  | some t =>
    if t = [] then .ok none
    else
      match convert_cleaned (cleanedOf t) with
      | .ok n => .ok (some n)
      | .exn _ => .ok none

/-- Value of a `clean_number` call as the callers use it. -/
def cleanNumVal (t : PyStr) : Option PyNum :=
  (clean_number (some t)).getOrHandle none

/-- Canonical keys of the `datos` dict (src/scraper.py lines 56–65). -/
inductive Key where
  | CAMIONES | CABEZAS | CAB_SEMANA | OP | INMAG | IGMAG | INDICE_ARREND | DTE_A_MAG
deriving DecidableEq

/-- Literal dict key for each canonical field. -/
def keyName : Key → String
  | .CAMIONES => "CAMIONES"
  | .CABEZAS => "CABEZAS"
  | .CAB_SEMANA => "CAB.SEMANA"
  | .OP => "OP"
  | .INMAG => "INMAG"
  | .IGMAG => "IGMAG"
  | .INDICE_ARREND => "ÍNDICE ARREND."
  | .DTE_A_MAG => "DTe a MAG"

/-- State of the `datos` dict: each canonical key to its value or `None`. -/
def Datos := Key → Option PyNum

/-- Initial `datos` dict: every key mapped to `None`. -/
def emptyDatos : Datos := fun _ => none

/-- Assignment `datos[k] = v`. -/
def setKey (d : Datos) (k : Key) (v : PyNum) : Datos :=
  fun k' => if k' = k then some v else d k'

/-- Keys of `datos` in dict insertion order. -/
def allKeys : List Key :=
  [.CAMIONES, .CABEZAS, .CAB_SEMANA, .OP, .INMAG, .IGMAG, .INDICE_ARREND, .DTE_A_MAG]

/-- Embedding of `sum(1 for v in datos.values() if v is not None)`. -/
def countResolved (d : Datos) : Nat :=
  (allKeys.filter (fun k => (d k).isSome)).length

/-- Embedding of the `elif` chain on the (already upper-cased) label in
strategy 1 (src/scraper.py lines 88–111): which key, if any, the label
assigns. -/
def matchLabel (label : PyStr) : Option Key :=
  if containsSub label "CAMIONES".toList then some .CAMIONES
  else if containsSub label "CABEZAS".toList && !containsSub label "SEMANA".toList then
    some .CABEZAS
  else if containsSub label "SEMANA".toList then some .CAB_SEMANA
  else if label = "OP".toList then some .OP
  else if containsSub label "INMAG".toList && !containsSub label "IGMAG".toList then
    some .INMAG
  else if containsSub label "IGMAG".toList then some .IGMAG
  else if containsSub label "ARREND".toList then some .INDICE_ARREND
  else if containsSub label "DTE".toList && containsSub label "MAG".toList then
    some .DTE_A_MAG
  else none

/-- Embedding of one iteration of the strategy-1 link loop (src/scraper.py
lines 72–111): `text` is `link.get_text(strip=True)`; split at newlines,
strip, keep nonempty; with at least two lines, line 0 is the number text
and line 1 (upper-cased) the label; assign when `clean_number` is non-None
and a label predicate fires. -/
def processLink (datos : Datos) (text : PyStr) : Datos :=
  if text = [] then datos
  else
    let lines := ((splitNl text).map stripPy).filter (fun l => l ≠ [])
    match lines with
    | numero_text :: lbl :: _ =>
      let label := upL lbl
      match cleanNumVal numero_text with
      | some numero =>
        match matchLabel label with
        | some k => setKey datos k numero
        | none => datos
      | none => datos
    | _ => datos

/-- Strategy 1 (src/scraper.py lines 67–111): fold the link loop over the
texts of all `a[href="javascript:void(0);"]` elements. -/
def strategy1 (links : List PyStr) : Datos :=
  links.foldl processLink emptyDatos

/-! Regex machinery for strategy 2.  The eight patterns of src/scraper.py
lines 121–130 use only character classes with `+`/`*`/`?`, case-insensitive
literals, and a single capturing group, so they are embedded into a tiny
backtracking matcher with Python `re.search` semantics (leftmost match,
greedy quantifiers, backtracking). -/

/-- Character classes occurring in the eight patterns. -/
inductive CK where
  | digit | space | digitDot | digitComma | dotSpace | pct | iAcc
deriving DecidableEq

/-- Membership test of a character class (with `re.IGNORECASE`). -/
def CK.mem : CK → Char → Bool
  | .digit, c => c.isDigit
  | .space, c => isSpacePy c
  | .digitDot, c => c.isDigit || c = '.'
  | .digitComma, c => c.isDigit || c = ','
  | .dotSpace, c => c = '.' || isSpacePy c
  | .pct, c => c = '%'
  | .iAcc, c => c = 'I' || c = 'i' || c = 'Í' || c = 'í'

/-- One token of a pattern: a case-insensitive literal (stored upper-cased),
or a class with quantifier `+`, `*`, `?`, or exactly-one. -/
inductive Tok where
  | lit : PyStr → Tok
  | plus : CK → Tok
  | star : CK → Tok
  | quesM : CK → Tok
  | one : CK → Tok

/-- Match a case-insensitive literal at the front, returning the rest. -/
def litMatch : PyStr → PyStr → Option PyStr
  | [], cs => some cs
  | _ :: _, [] => none
  | p :: ps, c :: cs => if upPy c = p then litMatch ps cs else none

/-- All remainders after matching a token list at the front of `cs`, in
backtracking priority order (greedy quantifiers first). -/
def matchToks : List Tok → PyStr → List PyStr
  | [], cs => [cs]
  | .lit l :: ts, cs =>
    match litMatch l cs with
    | some cs2 => matchToks ts cs2
    | none => []
  | .plus k :: ts, cs =>
    let r := (cs.takeWhile k.mem).length
    ((List.range r).map (fun i => r - i)).flatMap (fun i => matchToks ts (cs.drop i))
  | .star k :: ts, cs =>
    let r := (cs.takeWhile k.mem).length
    ((List.range (r + 1)).map (fun i => r - i)).flatMap (fun i => matchToks ts (cs.drop i))
  | .quesM k :: ts, cs =>
    (match cs with
     | c :: rest => if k.mem c then matchToks ts rest else []
     | [] => []) ++ matchToks ts cs
  | .one k :: ts, cs =>
    match cs with
    | c :: rest => if k.mem c then matchToks ts rest else []
    | [] => []

/-- First `some` produced along a list, in order. -/
def firstSome : List α → (α → Option β) → Option β
  | [], _ => none
  | a :: as, f => match f a with | some b => some b | none => firstSome as f

/-- A pattern with one capturing group: tokens before, inside, and after
the group. -/
structure Pat where
  pre : List Tok
  grp : List Tok
  post : List Tok

/-- Try to match `p` anchored at the start of `cs`; on success return the
text captured by the group (priority order matches `re` backtracking). -/
def matchHere (p : Pat) (cs : PyStr) : Option PyStr :=
  firstSome (matchToks p.pre cs) (fun r1 =>
    firstSome (matchToks p.grp r1) (fun r2 =>
      if (matchToks p.post r2).isEmpty then none
      else some (r1.take (r1.length - r2.length))))

/-- Embedding of `re.search(p, text, re.IGNORECASE).group(1)`: scan start
positions left to right. -/
def reSearch (p : Pat) : PyStr → Option PyStr
  | [] => matchHere p []
  | c :: t =>
    match matchHere p (c :: t) with
    | some g => some g
    | none => reSearch p t

/-- The `patterns` dict of src/scraper.py lines 121–130, in insertion
order, with each regex rendered into `Pat` form. -/
def patterns : List (Key × Pat) :=
  [ (.CAMIONES, ⟨[], [.plus .digit], [.star .space, .lit "CAMIONES".toList]⟩),
    (.CABEZAS, ⟨[], [.plus .digit], [.star .space, .lit "CABEZAS".toList]⟩),
    (.CAB_SEMANA, ⟨[], [.plus .digitDot],
      [.star .space, .lit "CAB".toList, .star .dotSpace, .lit "SEMANA".toList]⟩),
    (.OP, ⟨[], [.plus .digit], [.quesM .pct, .star .space, .lit "OP".toList]⟩),
    (.INMAG, ⟨[.lit "INMAG".toList, .star .space], [.plus .digitComma], []⟩),
    (.IGMAG, ⟨[.lit "IGMAG".toList, .star .space], [.plus .digitComma], []⟩),
    (.INDICE_ARREND, ⟨[.one .iAcc, .lit "NDICE".toList, .plus .space,
      .lit "ARREND".toList, .star .dotSpace], [.plus .digitComma], []⟩),
    (.DTE_A_MAG, ⟨[.lit "DTE".toList, .plus .space, .lit "A".toList, .plus .space,
      .lit "MAG".toList, .star .space], [.plus .digitDot], []⟩) ]

/-- One iteration of the strategy-2 loop (src/scraper.py lines 132–138):
only a still-`None` key is searched, and assigned only when the captured
group cleans to a non-`None` number. -/
def strategy2Step (allText : PyStr) (datos : Datos) (kp : Key × Pat) : Datos :=
  if (datos kp.1).isSome then datos
  else
    match reSearch kp.2 allText with
    | none => datos
    | some g =>
      match cleanNumVal g with
      | some numero => setKey datos kp.1 numero
      | none => datos

/-- Strategy 2 (src/scraper.py lines 113–139): the free-text regex pass
over the whole page text, in pattern order. -/
def strategy2 (allText : PyStr) (datos : Datos) : Datos :=
  patterns.foldl (strategy2Step allText) datos

/-- HTML document at the BeautifulSoup boundary: `links` holds
`link.get_text(strip=True)` for each `a[href="javascript:void(0);"]`
element in document order, `allText` holds `soup.get_text()`. -/
structure Document where
  links : List PyStr
  allText : PyStr

/-- Field-extraction part of `scrape_dashboard` (src/scraper.py lines
56–139): strategy 1 over all links, then strategy 2 only when fewer than
4 of the 8 values were obtained. -/
def extract_fields (doc : Document) : Datos :=
  let datos := strategy1 doc.links
  if countResolved datos < 4 then strategy2 doc.allText datos else datos

/-- Did the source run strategy 2 (the guard at src/scraper.py line 116)? -/
def strategy2Ran (doc : Document) : Bool :=
  countResolved (strategy1 doc.links) < 4

/-- Embedding of `MAGDashboardScraper.scrape_dashboard` (src/scraper.py
lines 43–166) after a successful fetch: returns `None` exactly when zero
values were obtained, otherwise the `datos` dict. -/
def scrape_dashboard (doc : Document) : Option Datos :=
  let datos := extract_fields doc
  if countResolved datos = 0 then none else some datos

/-- Was the raw document persisted as `debug_page.html` (src/scraper.py
lines 146–151)? -/
def debugSaved (doc : Document) : Bool :=
  countResolved (extract_fields doc) = 0

/-- JSON value in the persisted snapshot. -/
inductive JVal where
  | num : PyNum → JVal
  | str : String → JVal
  | obj : List (String × JVal) → JVal

/-- Lookup of a key in a JSON object, first match. -/
def lookupJ : List (String × JVal) → String → Option JVal
  | [], _ => none
  | (k, v) :: rest, key => if k = key then some v else lookupJ rest key

/-- Naive local datetime as produced by `datetime.now()`. -/
structure DT where
  year : Nat
  month : Nat
  day : Nat
  hour : Nat
  minute : Nat
  second : Nat
  micro : Nat

/-- Zero-padded two-digit rendering (strftime field). -/
def pad2 (n : Nat) : String :=
  if n < 10 then "0" ++ Nat.repr n else Nat.repr n

/-- Zero-padded four-digit rendering (strftime `%Y`). -/
def pad4 (n : Nat) : String :=
  if n < 10 then "000" ++ Nat.repr n
  else if n < 100 then "00" ++ Nat.repr n
  else if n < 1000 then "0" ++ Nat.repr n
  else Nat.repr n

/-- Zero-padded six-digit rendering (isoformat microseconds). -/
def pad6 (n : Nat) : String :=
  if n < 10 then "00000" ++ Nat.repr n
  else if n < 100 then "0000" ++ Nat.repr n
  else if n < 1000 then "000" ++ Nat.repr n
  else if n < 10000 then "00" ++ Nat.repr n
  else if n < 100000 then "0" ++ Nat.repr n
  else Nat.repr n

/-- Embedding of `datetime.now().strftime('%d/%m/%Y %H:%M')`
(src/scraper.py line 189). -/
def fmt_fecha_reporte (d : DT) : String :=
  pad2 d.day ++ "/" ++ pad2 d.month ++ "/" ++ pad4 d.year ++ " " ++
    pad2 d.hour ++ ":" ++ pad2 d.minute

/-- Embedding of `datetime.now().isoformat()` (src/scraper.py line 191):
microseconds are printed only when nonzero. -/
def iso_format (d : DT) : String :=
  pad4 d.year ++ "-" ++ pad2 d.month ++ "-" ++ pad2 d.day ++ "T" ++
    pad2 d.hour ++ ":" ++ pad2 d.minute ++ ":" ++ pad2 d.second ++
    (if d.micro = 0 then "" else "." ++ pad6 d.micro)

/-- Source URL constant `MAGDashboardScraper.URL`. -/
def URL : String := "https://www.mercadoagroganadero.com.ar/dll/inicio.dll"

/-- The `safe_data` normalisation in `save_to_json` (src/scraper.py lines
171–177): `None` becomes the sentinel `0`. -/
def safe_data (datos : Datos) (k : Key) : PyNum :=
  match datos k with
  | some v => v
  | none => PyNum.int 0

/-- Embedding of the `output` dict built by
`MAGDashboardScraper.save_to_json` (src/scraper.py lines 168–195), with
`now` the assembly-time local clock value. -/
def save_output (datos : Datos) (now : DT) : List (String × JVal) :=
  [ ("CAMIONES", .num (safe_data datos .CAMIONES)),
    ("CABEZAS", .num (safe_data datos .CABEZAS)),
    ("CAB.SEMANA", .num (safe_data datos .CAB_SEMANA)),
    ("OP", .num (safe_data datos .OP)),
    ("INMAG", .num (safe_data datos .INMAG)),
    ("IGMAG", .num (safe_data datos .IGMAG)),
    ("ÍNDICE ARREND.", .num (safe_data datos .INDICE_ARREND)),
    ("DTe a MAG", .num (safe_data datos .DTE_A_MAG)),
    ("fecha_reporte", .str (fmt_fecha_reporte now)),
    ("metadata", .obj
      [ ("fecha_actualizacion", .str (iso_format now)),
        ("fuente", .str URL),
        ("descripcion", .str "Datos del dashboard principal del Mercado Agroganadero") ]) ]

/-- Outcome of one HTTP attempt (`session.get` + `raise_for_status`):
either the body, or a raised requests exception. -/
inductive FetchOutcome where
  | success : PyStr → FetchOutcome
  | failure : String → FetchOutcome
deriving DecidableEq

/-- Observable behaviour of the fetch step of `scrape_dashboard`. -/
structure FetchResult where
  outcome : FetchOutcome
  attemptsUsed : Nat
  delays : List Nat
deriving DecidableEq

/-- Embedding of the fetch step of `scrape_dashboard` (src/scraper.py
lines 45–49): a single `self.session.get(self.URL, timeout=30)` followed
by `raise_for_status()` — one transport invocation, no retry loop and no
sleeps. -/
def fetch (transport : Nat → FetchOutcome) : FetchResult :=
  ⟨transport 0, 1, []⟩

/-- Observable effects of one `main()` run (src/scraper.py lines 214–244). -/
structure RunResult where
  exitCode : Nat
  debug : Bool
  snapshot : Bool
deriving DecidableEq

/-- Embedding of `main()` after a successful fetch of `doc`: `saveOk`
models whether `save_to_json`'s file write succeeds.  `scrape_dashboard`
returning `None` exits 1 (the debug page was written inside it); otherwise
`save_to_json` runs and its result selects exit 0 or 1. -/
def run_main (doc : Document) (saveOk : Bool) : RunResult :=
  match scrape_dashboard doc with
  | none => ⟨1, debugSaved doc, false⟩
  | some _ => if saveOk then ⟨0, debugSaved doc, true⟩ else ⟨1, debugSaved doc, false⟩

/-- Modelled from the spec: the timestamp format the spec prescribes for
the snapshot assembler — assembly time rendered `YYYY-MM-DD HH:MM:SS`
(src/scraper.py instead uses `%d/%m/%Y %H:%M`). -/
def spec_timestamp_format (d : DT) : String :=
  pad4 d.year ++ "-" ++ pad2 d.month ++ "-" ++ pad2 d.day ++ " " ++
    pad2 d.hour ++ ":" ++ pad2 d.minute ++ ":" ++ pad2 d.second

/-- Transport that fails on the first two attempts and succeeds on the
third — the test vector named by the spec for the retry behaviour. -/
def failTwiceTransport : Nat → FetchOutcome :=
  fun n => if n < 2 then .failure "Timeout" else .success "<html>".toList

example : cleanNumVal "1.234,56".toList = some (.float 123456 2) := by decide
example : cleanNumVal "1.234".toList = some (.int 1234) := by decide
example : cleanNumVal "".toList = none := by decide
example : cleanNumVal "abc".toList = none := by decide
example : cleanNumVal "-12,5".toList = some (.float (-125) 1) := by decide
example : cleanNumVal "  1.234 t ".toList = some (.int 1234) := by decide
example : cleanNumVal "5,".toList = some (.float 5 0) := by decide
example : cleanNumVal "1,2,3".toList = none := by decide
example : cleanNumVal "-".toList = none := by decide

example : strategy1 ["120\nCAMIONES".toList] Key.CAMIONES = some (.int 120) := by decide
example : strategy1 ["120\nCAMIONES".toList] Key.CABEZAS = none := by decide
example : matchLabel (upL "Cabezas".toList) = some Key.CABEZAS := by decide
example : matchLabel (upL "cab. semana".toList) = some Key.CAB_SEMANA := by decide
example : matchLabel (upL "camiones cabezas".toList) = some Key.CAMIONES := by decide
example : reSearch (⟨[], [.plus .digit], [.star .space, .lit "CAMIONES".toList]⟩)
    "hay 120 camiones hoy".toList = some "120".toList := by decide
example : reSearch (⟨[.lit "INMAG".toList, .star .space], [.plus .digitComma], []⟩)
    "xx INMAG 1,50 yy".toList = some "1,50".toList := by decide
example : reSearch (⟨[], [.plus .digit], [.star .space, .lit "CAMIONES".toList]⟩)
    "sin datos".toList = none := by decide
example : extract_fields ⟨["100\nCAMIONES".toList, "200\nCAMIONES".toList], []⟩
    Key.CAMIONES = some (.int 200) := by decide
example : countResolved (strategy1 ["100\nCAMIONES".toList]) = 1 := by decide
example : extract_fields ⟨[], "hay 7 CAMIONES y 9 CABEZAS".toList⟩ Key.CAMIONES
    = some (.int 7) := by decide

/-! Helper lemmas shared by the claim theorems. -/

theorem setKey_ne (d : Datos) (k k' : Key) (v : PyNum) (h : k' ≠ k) :
    setKey d k v k' = d k' := by
  simp [setKey, h]

theorem strategy2Step_preserves (t : PyStr) (d : Datos) (kp : Key × Pat)
    (k : Key) (v : PyNum) (h : d k = some v) :
    strategy2Step t d kp k = some v := by
  by_cases hc : (d kp.1).isSome
  · simp [strategy2Step, hc, h]
  · have hk : k ≠ kp.1 := by
      intro he
      rw [he] at h
      rw [h] at hc
      exact hc rfl
    unfold strategy2Step
    simp only [hc, if_false, Bool.false_eq_true]
    cases reSearch kp.2 t with
    | none => simpa using h
    | some g =>
      cases hcn : cleanNumVal g with
      | none => simpa [hcn] using h
      | some n => simpa [hcn, setKey_ne d kp.1 k n hk] using h

theorem foldl_strategy2Step_preserves (t : PyStr) (k : Key) (v : PyNum) :
    ∀ (ps : List (Key × Pat)) (d : Datos), d k = some v →
      (ps.foldl (strategy2Step t) d) k = some v := by
  intro ps
  induction ps with
  | nil => intro d h; exact h
  | cons p rest ih =>
    intro d h
    exact ih (strategy2Step t d p) (strategy2Step_preserves t d p k v h)

theorem strategy2_preserves (t : PyStr) (d : Datos) (k : Key) (v : PyNum)
    (h : d k = some v) : strategy2 t d k = some v :=
  foldl_strategy2Step_preserves t k v patterns d h

theorem extract_fields_preserves (doc : Document) (k : Key) (v : PyNum)
    (h : strategy1 doc.links k = some v) : extract_fields doc k = some v := by
  unfold extract_fields
  by_cases hc : countResolved (strategy1 doc.links) < 4
  · simp only [hc, if_true]
    exact strategy2_preserves doc.allText (strategy1 doc.links) k v h
  · simp only [hc, if_false]
    exact h

/-- C1: the claim as stated is false — within the link strategy a later
matching element overwrites a field already resolved by an earlier one.
With two links labelled CAMIONES carrying 100 and then 200, the first
element resolves the field to 100, yet the final extraction yields 200. -/
theorem strategy1_overwrite_cex :
    strategy1 ["100\nCAMIONES".toList] Key.CAMIONES = some (PyNum.int 100)
  ∧ extract_fields ⟨["100\nCAMIONES".toList, "200\nCAMIONES".toList], []⟩ Key.CAMIONES
      = some (PyNum.int 200)
  ∧ some (PyNum.int 200) ≠ some (PyNum.int 100) := by
  refine ⟨by decide, by decide, by decide⟩

/-- C1 (amended): resolution is monotonic across the cascade — a field
resolved by the link strategy is never overwritten by the regex strategy,
and within the regex strategy a resolved field is never overwritten by a
later pattern; but within the link strategy each matching element assigns
unconditionally, so there the last matching element wins. -/
theorem cascade_monotonic :
    (∀ (doc : Document) (k : Key) (v : PyNum),
      strategy1 doc.links k = some v → extract_fields doc k = some v)
  ∧ (∀ (t : PyStr) (d : Datos) (k : Key) (v : PyNum),
      d k = some v → strategy2 t d k = some v) :=
  ⟨extract_fields_preserves, strategy2_preserves⟩

/-- C1 witness: a link resolves CAMIONES to 120 and the page text would
regex-match 999, yet the final value is still 120. -/
theorem cascade_monotonic_witness :
    extract_fields ⟨["120\nCAMIONES".toList], "999 CAMIONES".toList⟩ Key.CAMIONES
      = some (PyNum.int 120) :=
  cascade_monotonic.1 ⟨["120\nCAMIONES".toList], "999 CAMIONES".toList⟩
    Key.CAMIONES (PyNum.int 120) (by decide)

/-- C2: the free-text regex strategy runs exactly when fewer than 4 of the
8 fields are resolved after the link strategy; when it does not run the
extraction result is the link-strategy result unchanged; when it runs it
is the regex pass applied to the link-strategy result, and it never
overwrites an already-resolved field. -/
theorem regex_strategy_gating (doc : Document) :
    (strategy2Ran doc = true ↔ countResolved (strategy1 doc.links) < 4)
  ∧ (strategy2Ran doc = false →
      ∀ k : Key, extract_fields doc k = strategy1 doc.links k)
  ∧ (strategy2Ran doc = true →
      ∀ k : Key, extract_fields doc k = strategy2 doc.allText (strategy1 doc.links) k)
  ∧ (∀ (k : Key) (v : PyNum),
      strategy1 doc.links k = some v → extract_fields doc k = some v) := by
  refine ⟨by simp [strategy2Ran], ?_, ?_, ?_⟩
  · intro hran k
    have hge : ¬countResolved (strategy1 doc.links) < 4 := by
      simpa [strategy2Ran] using hran
    simp [extract_fields, hge]
  · intro hran k
    have hlt : countResolved (strategy1 doc.links) < 4 := by
      simpa [strategy2Ran] using hran
    simp [extract_fields, hlt]
  · intro k v h
    exact extract_fields_preserves doc k v h

/-- C2 witness: with four links resolving four fields the regex pass is
skipped (the OP value stays the link value); with one link resolving one
field the regex pass runs and fills CABEZAS from the page text while
keeping the link-resolved CAMIONES. -/
theorem regex_strategy_gating_witness :
    extract_fields ⟨["1\nCAMIONES".toList, "2\nCABEZAS".toList, "3\nOP".toList,
        "4\nIGMAG".toList], "9 OP".toList⟩ Key.OP
      = strategy1 ["1\nCAMIONES".toList, "2\nCABEZAS".toList, "3\nOP".toList,
        "4\nIGMAG".toList] Key.OP
  ∧ extract_fields ⟨["1\nCAMIONES".toList], "7 CABEZAS".toList⟩ Key.CABEZAS
      = strategy2 "7 CABEZAS".toList (strategy1 ["1\nCAMIONES".toList]) Key.CABEZAS
  ∧ extract_fields ⟨["1\nCAMIONES".toList], "7 CABEZAS".toList⟩ Key.CAMIONES
      = some (PyNum.int 1) :=
  ⟨(regex_strategy_gating _).2.1 (by decide) Key.OP,
   (regex_strategy_gating _).2.2.1 (by decide) Key.CABEZAS,
   (regex_strategy_gating _).2.2.2 Key.CAMIONES (PyNum.int 1) (by decide)⟩

theorem upPy_idem (c : Char) : upPy (upPy c) = upPy c := by
  cases hf : lcPairs.find? (fun p => p.1 = c) with
  | none =>
    have h1 : upPy c = c := by simp [upPy, hf]
    rw [h1]
    exact h1
  | some p =>
    have hmem : p ∈ lcPairs := List.mem_of_find?_eq_some hf
    have hnone : lcPairs.find? (fun q => q.1 = p.2) = none := by
      have hall : lcPairs.all
          (fun r => (lcPairs.find? (fun q => q.1 = r.2)).isNone) = true := by decide
      have := List.all_eq_true.mp hall p hmem
      exact Option.isNone_iff_eq_none.mp this
    have h1 : upPy c = p.2 := by simp [upPy, hf]
    have h2 : upPy p.2 = p.2 := by simp [upPy, hnone]
    rw [h1, h2]

theorem upL_idem (s : PyStr) : upL (upL s) = upL s := by
  induction s with
  | nil => rfl
  | cons c t ih =>
    simp only [upL, List.map_cons]
    simp only [upL] at ih
    rw [upPy_idem, ih]

/-- C5: the claim as stated is false — a label containing "CABEZAS" and
not "SEMANA" does not always resolve the head-count field, because the
"CAMIONES" predicate is tested first: the label "CAMIONES CABEZAS"
resolves CAMIONES, not CABEZAS. -/
theorem label_match_cex :
    containsSub (upL "camiones cabezas".toList) "CABEZAS".toList = true
  ∧ containsSub (upL "camiones cabezas".toList) "SEMANA".toList = false
  ∧ matchLabel (upL "camiones cabezas".toList) = some Key.CAMIONES
  ∧ matchLabel (upL "camiones cabezas".toList) ≠ some Key.CABEZAS := by
  refine ⟨by decide, by decide, by decide, by decide⟩

/-- C5 (amended): for labels that do not also contain the earlier-tested
keyword "CAMIONES", a label containing "CABEZAS" without "SEMANA" resolves
exactly the head-count field and one with both resolves exactly the weekly
head-count field; a label containing "IGMAG" never resolves INMAG; and
matching is case-insensitive (invariant under upper-casing the label). -/
theorem label_disambiguation (lbl : PyStr) :
    (containsSub (upL lbl) "CAMIONES".toList = false →
     containsSub (upL lbl) "CABEZAS".toList = true →
     containsSub (upL lbl) "SEMANA".toList = false →
     matchLabel (upL lbl) = some Key.CABEZAS)
  ∧ (containsSub (upL lbl) "CAMIONES".toList = false →
     containsSub (upL lbl) "CABEZAS".toList = true →
     containsSub (upL lbl) "SEMANA".toList = true →
     matchLabel (upL lbl) = some Key.CAB_SEMANA)
  ∧ (containsSub (upL lbl) "IGMAG".toList = true →
     matchLabel (upL lbl) ≠ some Key.INMAG)
  ∧ matchLabel (upL (upL lbl)) = matchLabel (upL lbl) := by
  refine ⟨?_, ?_, ?_, by rw [upL_idem]⟩
  · intro h1 h2 h3
    simp at h1 h2 h3
    simp [matchLabel, h1, h2, h3]
  · intro h1 h2 h3
    simp at h1 h2 h3
    simp [matchLabel, h1, h2, h3]
  · intro h
    unfold matchLabel
    split_ifs <;> simp_all

/-- C5 witness: "Cabezas hoy" resolves CABEZAS, "cabezas semana" resolves
CAB.SEMANA, and "IGMAG" does not resolve INMAG. -/
theorem label_disambiguation_witness :
    matchLabel (upL "Cabezas hoy".toList) = some Key.CABEZAS
  ∧ matchLabel (upL "cabezas semana".toList) = some Key.CAB_SEMANA
  ∧ matchLabel (upL "IGMAG".toList) ≠ some Key.INMAG :=
  ⟨(label_disambiguation "Cabezas hoy".toList).1 (by decide) (by decide) (by decide),
   (label_disambiguation "cabezas semana".toList).2.1 (by decide) (by decide) (by decide),
   (label_disambiguation "IGMAG".toList).2.2.1 (by decide)⟩

theorem convert_cleaned_shape (c : PyStr) (n : PyNum)
    (h : convert_cleaned c = .ok n) :
    (∃ i, n = PyNum.int i) ∨ ∃ m e, n = PyNum.float m e := by
  unfold convert_cleaned at h
  by_cases hd : c.contains '.'
  · simp only [hd, if_true] at h
    cases hf : float_py c with
    | ok me =>
      rw [hf] at h
      refine Or.inr ⟨me.1, me.2, ?_⟩
      cases me
      simp at h
      exact h.symm
    | exn msg => rw [hf] at h; cases h
  · simp only [hd, Bool.false_eq_true, if_false] at h
    cases hf : int_py c with
    | ok i =>
      rw [hf] at h
      refine Or.inl ⟨i, ?_⟩
      simp at h
      exact h.symm
    | exn msg => rw [hf] at h; cases h

/-- C3: the number normalizer follows the locale convention —
`clean_number "1.234,56"` is the float 1234.56 (mantissa 123456, two
decimal places), `clean_number "1.234"` is the integer 1234, the empty
string gives `None`, and non-numeric text gives the consistently chosen
failure result `None`; in general every result is `None`, an integer, or
a float. -/
theorem clean_number_locale :
    clean_number (some "1.234,56".toList) = .ok (some (PyNum.float 123456 2))
  ∧ PyNum.toRat (PyNum.float 123456 2) = 1234.56
  ∧ clean_number (some "1.234".toList) = .ok (some (PyNum.int 1234))
  ∧ clean_number (some "".toList) = .ok none
  ∧ clean_number (some "abc".toList) = .ok none
  ∧ ∀ s : PyStr, clean_number (some s) = .ok none
      ∨ (∃ i, clean_number (some s) = .ok (some (PyNum.int i)))
      ∨ ∃ m e, clean_number (some s) = .ok (some (PyNum.float m e)) := by
  refine ⟨by decide, by norm_num [PyNum.toRat], by decide, by decide, by decide, ?_⟩
  intro s
  unfold clean_number
  by_cases hs : s = []
  · simp [hs]
  · simp only [hs, if_false]
    cases hc : convert_cleaned (cleanedOf s) with
    | ok n =>
      rcases convert_cleaned_shape (cleanedOf s) n hc with ⟨i, hi⟩ | ⟨m, e, hme⟩
      · exact Or.inr (Or.inl ⟨i, by rw [hi]⟩)
      · exact Or.inr (Or.inr ⟨m, e, by rw [hme]⟩)
    | exn msg => exact Or.inl rfl

/-- C9: the number normalizer is total — for `None` and for every string
input, `clean_number` returns normally (the `except` branch catches every
failure of the numeric conversion), and the returned value is `None` or a
number. -/
theorem clean_number_total (t : Option PyStr) :
    ∃ v : Option PyNum, clean_number t = .ok v := by
  cases t with
  | none => exact ⟨none, rfl⟩
  | some s =>
    by_cases hs : s = []
    · exact ⟨none, by simp [clean_number, hs]⟩
    · unfold clean_number
      simp only [hs, if_false]
      cases hc : convert_cleaned (cleanedOf s) with
      | ok n => exact ⟨some n, rfl⟩
      | exn msg => exact ⟨none, rfl⟩

/-- C6: the run is a hard failure exactly when zero of the 8 fields
resolve — then the raw document is persisted as a debug artifact, no
snapshot is written, and the exit status is nonzero; when at least one
field resolved and persistence succeeds the exit status is 0 and the
snapshot is written. -/
theorem zero_fields_hard_failure (doc : Document) (saveOk : Bool) :
    (countResolved (extract_fields doc) = 0 ↔
      (run_main doc saveOk).debug = true ∧ (run_main doc saveOk).snapshot = false ∧
      (run_main doc saveOk).exitCode ≠ 0)
  ∧ (1 ≤ countResolved (extract_fields doc) → saveOk = true →
      (run_main doc saveOk).exitCode = 0 ∧ (run_main doc saveOk).snapshot = true) := by
  constructor
  · constructor
    · intro h0
      simp [run_main, scrape_dashboard, debugSaved, h0]
    · intro ⟨hdebug, _, _⟩
      by_cases h0 : countResolved (extract_fields doc) = 0
      · exact h0
      · exfalso
        have : (run_main doc saveOk).debug = false := by
          cases saveOk <;> simp [run_main, scrape_dashboard, debugSaved, h0]
        rw [this] at hdebug
        cases hdebug
  · intro h1 hsave
    have h0 : ¬countResolved (extract_fields doc) = 0 := by omega
    simp [run_main, scrape_dashboard, hsave, h0, debugSaved]

/-- C6 witness: an empty document resolves zero fields and exits nonzero
with the debug artifact saved and no snapshot; a document with one
CAMIONES link exits 0 with the snapshot written. -/
theorem zero_fields_hard_failure_witness :
    ((run_main ⟨[], []⟩ true).debug = true ∧ (run_main ⟨[], []⟩ true).snapshot = false ∧
      (run_main ⟨[], []⟩ true).exitCode ≠ 0)
  ∧ ((run_main ⟨["120\nCAMIONES".toList], []⟩ true).exitCode = 0 ∧
      (run_main ⟨["120\nCAMIONES".toList], []⟩ true).snapshot = true) :=
  ⟨(zero_fields_hard_failure ⟨[], []⟩ true).1.mp (by decide),
   (zero_fields_hard_failure ⟨["120\nCAMIONES".toList], []⟩ true).2 (by decide) rfl⟩

/-- C7: for every partially resolved mapping (between 1 and 7 of the 8
fields resolved) the persisted snapshot carries all 8 canonical keys (and
only then the timestamp and metadata entries): resolved fields carry their
extracted values and unresolved fields carry the sentinel 0; no key is
omitted. -/
theorem snapshot_complete_shape (datos : Datos) (now : DT)
    (h1 : 1 ≤ countResolved datos) (h7 : countResolved datos ≤ 7) :
    ((save_output datos now).map Prod.fst =
      ["CAMIONES", "CABEZAS", "CAB.SEMANA", "OP", "INMAG", "IGMAG",
       "ÍNDICE ARREND.", "DTe a MAG", "fecha_reporte", "metadata"])
  ∧ (∀ k : Key, datos k = none →
      lookupJ (save_output datos now) (keyName k) = some (.num (PyNum.int 0)))
  ∧ (∀ k : Key, ∀ v : PyNum, datos k = some v →
      lookupJ (save_output datos now) (keyName k) = some (.num v)) := by
  refine ⟨rfl, ?_, ?_⟩
  · intro k hk
    cases k <;> simp [save_output, lookupJ, keyName, safe_data, hk]
  · intro k v hk
    cases k <;> simp [save_output, lookupJ, keyName, safe_data, hk]

/-- C7 witness: with exactly one resolved field (CAMIONES = 120), the
snapshot carries 120 under CAMIONES and the sentinel 0 under OP. -/
theorem snapshot_complete_shape_witness :
    lookupJ (save_output (fun k => if k = Key.CAMIONES then some (PyNum.int 120) else none)
        ⟨2024, 1, 1, 0, 0, 0, 0⟩) "CAMIONES" = some (.num (PyNum.int 120))
  ∧ lookupJ (save_output (fun k => if k = Key.CAMIONES then some (PyNum.int 120) else none)
        ⟨2024, 1, 1, 0, 0, 0, 0⟩) "OP" = some (.num (PyNum.int 0)) :=
  ⟨(snapshot_complete_shape (fun k => if k = Key.CAMIONES then some (PyNum.int 120) else none)
      ⟨2024, 1, 1, 0, 0, 0, 0⟩ (by decide) (by decide)).2.2 Key.CAMIONES (PyNum.int 120)
      (by decide),
   (snapshot_complete_shape (fun k => if k = Key.CAMIONES then some (PyNum.int 120) else none)
      ⟨2024, 1, 1, 0, 0, 0, 0⟩ (by decide) (by decide)).2.1 Key.OP (by decide)⟩

/-- C8: the claim as stated is false — the snapshot timestamp is rendered
`%d/%m/%Y %H:%M` from the naive local clock, not `YYYY-MM-DD HH:MM:SS`:
at 2024-03-05 07:09:00 local time the stamped string is
"05/03/2024 07:09", which differs from the spec's format. -/
theorem timestamp_format_cex :
    fmt_fecha_reporte ⟨2024, 3, 5, 7, 9, 0, 0⟩ = "05/03/2024 07:09"
  ∧ spec_timestamp_format ⟨2024, 3, 5, 7, 9, 0, 0⟩ = "2024-03-05 07:09:00"
  ∧ fmt_fecha_reporte ⟨2024, 3, 5, 7, 9, 0, 0⟩
      ≠ spec_timestamp_format ⟨2024, 3, 5, 7, 9, 0, 0⟩
  ∧ lookupJ (save_output emptyDatos ⟨2024, 3, 5, 7, 9, 0, 0⟩) "fecha_reporte"
      = some (.str "05/03/2024 07:09") := by
  refine ⟨by decide, by decide, by decide, rfl⟩

/-- C8 (amended): the snapshot stamps the assembly-time clock value with
no fixed-zone conversion — `fecha_reporte` is that value rendered
`DD/MM/YYYY HH:MM`, and `metadata.fecha_actualizacion` is its ISO
rendering. -/
theorem timestamp_fields (datos : Datos) (now : DT) :
    lookupJ (save_output datos now) "fecha_reporte"
      = some (.str (fmt_fecha_reporte now))
  ∧ ∃ m, lookupJ (save_output datos now) "metadata" = some (.obj m) ∧
      lookupJ m "fecha_actualizacion" = some (.str (iso_format now)) :=
  ⟨rfl, ⟨_, rfl, rfl⟩⟩

/-- C10: every value the extractor resolves is numeric — for every
document the scrape result is `None` or exactly the extracted mapping,
and in the persisted snapshot each canonical key carries a JSON number
(never raw label text): the extracted value when resolved, the sentinel
`0` when not. -/
theorem resolved_values_numeric (doc : Document) (now : DT) :
    (scrape_dashboard doc = none ∨ scrape_dashboard doc = some (extract_fields doc))
  ∧ ∀ k : Key, ∃ n : PyNum,
      lookupJ (save_output (extract_fields doc) now) (keyName k) = some (.num n) ∧
      (extract_fields doc k = some n ∨ (extract_fields doc k = none ∧ n = PyNum.int 0)) := by
  constructor
  · unfold scrape_dashboard
    by_cases h0 : countResolved (extract_fields doc) = 0
    · simp [h0]
    · simp [h0]
  · intro k
    refine ⟨safe_data (extract_fields doc) k, ?_, ?_⟩
    · cases k <;> rfl
    · cases hk : extract_fields doc k with
      | some v => exact Or.inl (by simp [safe_data, hk])
      | none => exact Or.inr ⟨rfl, by simp [safe_data, hk]⟩

/-- C4: the claim as stated is false — there is no retry loop: with a
transport that fails twice and then succeeds, the fetch step makes exactly
one attempt, applies no backoff delays, and ends in failure rather than
success after three attempts. -/
theorem fetch_retry_cex :
    (fetch failTwiceTransport).attemptsUsed = 1
  ∧ (fetch failTwiceTransport).attemptsUsed ≠ 3
  ∧ (fetch failTwiceTransport).outcome = .failure "Timeout"
  ∧ (fetch failTwiceTransport).delays = [] := by
  refine ⟨by decide, by decide, by decide, by decide⟩

/-- C4 (amended): the fetcher makes exactly one HTTP attempt — one
transport invocation, no backoff delays — and its outcome is that single
attempt's outcome. -/
theorem fetch_single_attempt (transport : Nat → FetchOutcome) :
    (fetch transport).attemptsUsed = 1
  ∧ (fetch transport).delays = []
  ∧ (fetch transport).outcome = transport 0 :=
  ⟨rfl, rfl, rfl⟩
